import Mathlib

/-!
Verification of the NextMed tabular EHR query engine.

This file gives a shallow embedding, in Lean 4, of the engine's core:

* the EHR data service (CSV record parser, dataset/statistics caches,
  `searchRecords`) from the frontend library, and
* the query API route (`parseSimpleSQL`, `executeFilterQuery`,
  `executeSQLQuery`, `executeAggregateQuery`).

JavaScript strings are modelled as `List Char`; JavaScript objects used as
string-keyed count maps are modelled as insertion-ordered association lists.
JavaScript regular-expression matching (leftmost match, greedy/lazy
quantifiers with backtracking) is modelled by dedicated searchers, one per
regular expression occurring in the source, each documented with the exact
pattern it embeds.  Wall-clock fields (`queryTime`, `lastUpdated`) and the
floating-point average (`avgVisitsPerPatient`) are outside the embedding;
`Date.now()` is passed in explicitly as a `Nat` where cache logic needs it.
-/

/-! ## JavaScript-style string primitives -/

/-- ASCII whitespace, as recognised by the JavaScript `\s` class and
`String.prototype.trim` (the Unicode additions never occur in the data). -/
def isSpaceChar (c : Char) : Bool :=
  c = ' ' || c = '\t' || c = '\n' || c = '\r' || c = Char.ofNat 11 || c = Char.ofNat 12

/-- JavaScript `\w`: ASCII letters, digits and underscore. -/
def isWordChar (c : Char) : Bool :=
  c.isAlphanum || c = '_'

/-- JavaScript `\d`: ASCII digits. -/
def isDigitChar (c : Char) : Bool :=
  c.isDigit

/-- ASCII lowercasing of a character, as `String.prototype.toLowerCase`
acts on the ASCII data this system processes. -/
def lowerChar (c : Char) : Char :=
  Char.toLower c

/-- Lowercase a string (JS `toLowerCase` restricted to ASCII). -/
def lowerStr (s : String) : String :=
  String.mk (s.data.map lowerChar)

/-- JS `String.prototype.trim` on a character list. -/
def trimStr (l : List Char) : List Char :=
  ((l.dropWhile isSpaceChar).reverse.dropWhile isSpaceChar).reverse

/-- Does `hay` start with `need` (character-exact)? -/
def startsWithChars : List Char → List Char → Bool
  | _, [] => true
  | [], _ :: _ => false
  | h :: hs, n :: ns => h = n && startsWithChars hs ns

/-- Does `hay` contain `need` as a contiguous substring?  Models JS
`String.prototype.includes`; in particular the empty needle is contained
in every string. -/
def containsChars : List Char → List Char → Bool
  | [], need => need.isEmpty
  | h :: t, need => startsWithChars (h :: t) need || containsChars t need

/-- `hay.includes(need)` on Lean strings. -/
def includesStr (hay need : String) : Bool :=
  containsChars hay.data need.data

/-- JS `String.prototype.split` on a single-character separator: e.g.
splitting the empty string yields `[[]]`, and separators at the ends yield
empty fragments, exactly as in JavaScript. -/
def splitOnChar (sep : Char) : List Char → List (List Char)
  | [] => [[]]
  | c :: cs =>
    let r := splitOnChar sep cs
    if c = sep then [] :: r
    else
      match r with
      | h :: t => (c :: h) :: t
      | [] => [[c]]

/-- Value of a non-empty ASCII digit run, radix 10. -/
def digitsToNat (l : List Char) : Nat :=
  l.foldl (fun n c => n * 10 + (c.toNat - 48)) 0

/-- JS `Number.parseInt(s, 10)`: leading whitespace skipped, optional
sign, then a maximal digit run; `none` models `NaN`. -/
def jsParseInt (s : String) : Option Int :=
  let l := s.data.dropWhile isSpaceChar
  let signAndRest : Int × List Char :=
    match l with
    | '-' :: rest => (-1, rest)
    | '+' :: rest => (1, rest)
    | _ => (1, l)
  let ds := signAndRest.2.takeWhile isDigitChar
  if ds.isEmpty then none else some (signAndRest.1 * (digitsToNat ds : Int))

/-! ## Insertion-ordered string-keyed maps

JavaScript objects used as maps (`result.where`, `aggregations`) preserve
first-insertion order of string keys; assignment to an existing key updates
in place, assignment to a fresh key appends. -/

/-- Object property assignment `m[k] = v`. -/
def upsert : List (String × String) → String → String → List (String × String)
  | [], k, v => [(k, v)]
  | (k0, v0) :: rest, k, v =>
    if k0 = k then (k0, v) :: rest else (k0, v0) :: upsert rest k v

/-- Read of an object property under a JavaScript truthiness guard
(`if (m.k)`): absent keys and the empty string both fail the guard. -/
def getTruthy (m : List (String × String)) (k : String) : Option String :=
  match m.find? (fun p => p.1 = k) with
  | some p => if p.2 = "" then none else some p.2
  | none => none

/-- Count-map increment `aggs[key] = (aggs[key] || 0) + 1`. -/
def bump : List (String × Nat) → String → List (String × Nat)
  | [], k => [(k, 1)]
  | (k0, n) :: rest, k =>
    if k0 = k then (k0, n + 1) :: rest else (k0, n) :: bump rest k

/-- Sum of the counts of a count map. -/
def sumCounts (l : List (String × Nat)) : Nat :=
  (l.map Prod.snd).sum

/-- Insert an entry into a descending-sorted count map, before the first
entry whose count does not exceed it.  Inserting earlier-positioned
entries last (as `sortDesc` does) keeps equal-count entries in their
original order. -/
def insertDesc (x : String × Nat) : List (String × Nat) → List (String × Nat)
  | [] => [x]
  | y :: ys => if y.2 ≤ x.2 then x :: y :: ys else y :: insertDesc x ys

/-- Stable descending sort of a count map by count, modelling the source's
`Object.entries(x).sort((a, b) => b[1] - a[1])` (a stable sort in the
JavaScript runtime), realised as a stable insertion sort so that it
computes by structural recursion. -/
def sortDesc (l : List (String × Nat)) : List (String × Nat) :=
  l.foldr insertDesc []

/-! ## Data model (EHR data service) -/

/-- One past visit entry, from the data service's `PastVisit`. -/
structure PastVisit where
  date : String
  diagnosis : String
deriving Repr, DecidableEq

/-- One patient record, from the data service's `EHRRecord`.  Ages are
JavaScript numbers that are integers here (parsed via `parseInt`), hence
`Int`. -/
structure EHRRecord where
  fullName : String
  age : Int
  gender : String
  region : String
  address : String
  symptoms : List String
  medicationHistory : List String
  pastVisits : List PastVisit
  phoneNumber : String
  insuranceId : String
deriving Repr, DecidableEq

namespace DataService

/-! ## Record parser (data service `parseCSVRow` and friends) -/

/-- Worker for `parseCSVRow`: character loop with a quote-toggling flag;
`cur` holds the current field reversed.  A double quote toggles quoted
mode (and is dropped), a comma outside quotes ends the field, every field
is trimmed when pushed. -/
def csvRowGo : List Char → List Char → List String → Bool → List String
  | [], cur, acc, _ => acc ++ [String.mk (trimStr cur.reverse)]
  | c :: cs, cur, acc, inQuotes =>
    if c = Char.ofNat 34 then csvRowGo cs cur acc (!inQuotes)
    else if c = ',' && !inQuotes then
      csvRowGo cs [] (acc ++ [String.mk (trimStr cur.reverse)]) inQuotes
    else csvRowGo cs (c :: cur) acc inQuotes

/-- Data service `parseCSVRow`: tokenize one CSV row, honouring
double-quoted segments that may contain the separator. -/
def parseCSVRow (row : String) : List String :=
  csvRowGo row.data [] [] false

/-- Data service `parseListField`: comma-separated free text, trimmed per
item, empty items dropped (`filter(Boolean)`), with `""` and the literal
`"None"` mapping to the empty list. -/
def parseListField (value : String) : List String :=
  if value = "" || value = "None" then []
  else ((splitOnChar ',' value.data).map (fun l => String.mk (trimStr l))).filter
    (fun s => s ≠ "")

/-- Groups extracted by the global regex `\[([^\]]+)\]` of
`parsePastVisits`: bracketed bodies of at least one non-`]` character,
scanned left to right, the scan resuming after each match.  `fuel` bounds
the recursion by the input length; every step consumes at least one
character. -/
def bracketGroupsGo : Nat → List Char → List (List Char)
  | 0, _ => []
  | _ + 1, [] => []
  | fuel + 1, c :: cs =>
    if c = '[' then
      let body := cs.takeWhile (fun x => x ≠ ']')
      let rest := cs.dropWhile (fun x => x ≠ ']')
      match rest with
      | ']' :: rest2 =>
        if body.isEmpty then bracketGroupsGo fuel cs else body :: bracketGroupsGo fuel rest2
      | _ => bracketGroupsGo fuel cs
    else bracketGroupsGo fuel cs

/-- All matches of `\[([^\]]+)\]` in a string. -/
def bracketGroups (l : List Char) : List (List Char) :=
  bracketGroupsGo (l.length + 1) l

/-- Split one bracketed group on its first colon into a visit; groups with
no colon are skipped (`colonIndex > -1` in the source). -/
def visitOfGroup (g : List Char) : Option PastVisit :=
  let before := g.takeWhile (fun c => c ≠ ':')
  let rest := g.dropWhile (fun c => c ≠ ':')
  match rest with
  | ':' :: afterColon =>
    some { date := String.mk (trimStr before), diagnosis := String.mk (trimStr afterColon) }
  | _ => none

/-- Data service `parsePastVisits`. -/
def parsePastVisits (visitStr : String) : List PastVisit :=
  if visitStr = "" || visitStr = "None" then []
  else (bracketGroups visitStr.data).filterMap visitOfGroup

/-- Assemble one `EHRRecord` from a tokenized row (the source indexes
`fields[0]`‥`fields[9]` with `|| ""` / `parseInt(...) || 0` fallbacks). -/
def recordOfFields (fields : List String) : EHRRecord :=
  { fullName := fields.getD 0 ""
    age := (jsParseInt (fields.getD 1 "")).getD 0
    gender := fields.getD 2 ""
    region := fields.getD 3 ""
    address := fields.getD 4 ""
    symptoms := parseListField (fields.getD 5 "")
    medicationHistory := parseListField (fields.getD 6 "")
    pastVisits := parsePastVisits (fields.getD 7 "")
    phoneNumber := fields.getD 8 ""
    insuranceId := fields.getD 9 "" }

/-- Body of `loadEHRData`'s parse step: split the raw text into non-blank
lines, drop the header line, tokenize each data line and keep rows with at
least 10 fields. -/
def parseEHRContent (content : String) : List EHRRecord :=
  let lines := (splitOnChar '\n' content.data).filter (fun l => !(trimStr l).isEmpty)
  let dataLines := lines.drop 1
  dataLines.filterMap (fun l =>
    let fields := parseCSVRow (String.mk l)
    if fields.length < 10 then none else some (recordOfFields fields))

/-! ## Statistics aggregator (data service `getEHRStatistics` body) -/

/-- Data service `getAgeGroup`: the six statistics buckets. -/
def getAgeGroup (age : Int) : String :=
  if age < 18 then "0-17"
  else if age < 30 then "18-29"
  else if age < 45 then "30-44"
  else if age < 60 then "45-59"
  else if age < 75 then "60-74"
  else "75+"

/-- The statistics snapshot (`EHRStatistics`).  Distributions are
insertion-ordered count maps.  `lastUpdated` (wall clock) and
`avgVisitsPerPatient` (floating-point rounding) are outside the
embedding and omitted. -/
structure EHRStatistics where
  totalRecords : Nat
  ageDistribution : List (String × Nat)
  genderDistribution : List (String × Nat)
  regionDistribution : List (String × Nat)
  chronicConditions : List (String × Nat)
  topDiagnoses : List (String × Nat)
  topMedications : List (String × Nat)
  patientsOnMedication : Nat
  patientsNoMedication : Nat
  totalVisits : Nat
  visitsByYear : List (String × Nat)
deriving Repr, DecidableEq

/-- One record's contribution to the statistics accumulation loop. -/
def statsStep (st : EHRStatistics) (r : EHRRecord) : EHRStatistics :=
  let st := { st with ageDistribution := bump st.ageDistribution (getAgeGroup r.age) }
  let st := { st with genderDistribution := bump st.genderDistribution r.gender }
  let st := { st with regionDistribution := bump st.regionDistribution r.region }
  let st := { st with chronicConditions := r.symptoms.foldl bump st.chronicConditions }
  let st :=
    if r.medicationHistory.length > 0 then
      { st with patientsOnMedication := st.patientsOnMedication + 1
                topMedications := r.medicationHistory.foldl bump st.topMedications }
    else { st with patientsNoMedication := st.patientsNoMedication + 1 }
  let st := { st with totalVisits := st.totalVisits + r.pastVisits.length }
  r.pastVisits.foldl (fun st v =>
    let st := { st with topDiagnoses := bump st.topDiagnoses v.diagnosis }
    let year := v.date.data.takeWhile (fun c => c ≠ '-')
    if year.isEmpty then st
    else { st with visitsByYear := bump st.visitsByYear (String.mk year) }) st

/-- Source `sortAndLimit`: order a distribution by descending count and
keep the top `limit` entries. -/
def sortAndLimit (obj : List (String × Nat)) (limit : Nat) : List (String × Nat) :=
  (sortDesc obj).take limit

/-- The statistics computation of `getEHRStatistics` (cache logic aside):
one pass over the records, then presentation caps of 30 on regions and 20
on conditions, diagnoses and medications. -/
def computeStatistics (records : List EHRRecord) : EHRStatistics :=
  let base : EHRStatistics :=
    { totalRecords := records.length
      ageDistribution := [], genderDistribution := [], regionDistribution := []
      chronicConditions := [], topDiagnoses := [], topMedications := []
      patientsOnMedication := 0, patientsNoMedication := 0
      totalVisits := 0, visitsByYear := [] }
  let s := records.foldl statsStep base
  { s with regionDistribution := sortAndLimit s.regionDistribution 30
           chronicConditions := sortAndLimit s.chronicConditions 20
           topDiagnoses := sortAndLimit s.topDiagnoses 20
           topMedications := sortAndLimit s.topMedications 20 }

/-! ## Dataset cache (module-level mutable state of the data service)

The module-level variables `cachedRecords`, `cachedStats` and
`cacheTimestamp` become an explicit state record; `Date.now()` becomes the
`now` argument; the `fs.readFile` outcome becomes an `Except` argument
(`.error` models a rejected read whose `catch` branch runs). -/

/-- Source constant `CACHE_TTL_MS = 5 * 60 * 1000`. -/
def CACHE_TTL_MS : Nat := 5 * 60 * 1000

/-- The data service's module-level cache cells. -/
structure CacheState where
  cachedRecords : Option (List EHRRecord)
  cachedStats : Option EHRStatistics
  cacheTimestamp : Option Nat
deriving Repr, DecidableEq

/-- The shared timestamp guard `cacheTimestamp && Date.now() - cacheTimestamp
< CACHE_TTL_MS` (a `0` timestamp is falsy in JavaScript). -/
def tsFresh (st : CacheState) (now : Nat) : Bool :=
  match st.cacheTimestamp with
  | some t => t ≠ 0 && now - t < CACHE_TTL_MS
  | none => false

/-- The record-cache guard of `loadEHRData`: `cachedRecords &&
cacheTimestamp && Date.now() - cacheTimestamp < CACHE_TTL_MS` (an array is
always truthy). -/
def recordCacheValid (st : CacheState) (now : Nat) : Bool :=
  st.cachedRecords.isSome && tsFresh st now

/-- Data service `loadEHRData`: serve the cached snapshot while fresh;
otherwise read and parse the source, replacing the record snapshot,
stamping the time and invalidating the statistics cache — or, when the
read fails, log and return an empty record list leaving the cache cells
untouched. -/
def loadEHRData (readResult : Except String String) (now : Nat) (st : CacheState) :
    List EHRRecord × CacheState :=
  if recordCacheValid st now then
    (st.cachedRecords.getD [], st)
  else
    match readResult with
    | Except.ok content =>
      let records := parseEHRContent content
      (records,
        { cachedRecords := some records, cachedStats := none, cacheTimestamp := some now })
    | Except.error _ => ([], st)

/-- Data service `getEHRStatistics`: serve the cached statistics while the
shared timestamp is fresh; otherwise recompute from `loadEHRData`'s result
and store the new snapshot (the timestamp cell is not touched here). -/
def getEHRStatistics (readResult : Except String String) (now : Nat) (st : CacheState) :
    EHRStatistics × CacheState :=
  match st.cachedStats, tsFresh st now with
  | some s, true => (s, st)
  | _, _ =>
    let rs := loadEHRData readResult now st
    let stats := computeStatistics rs.1
    (stats, { rs.2 with cachedStats := some stats })

/-! ## Record search (data service `searchRecords`) -/

/-- The options bag of `searchRecords`. -/
structure SearchOptions where
  condition : Option String := none
  medication : Option String := none
  region : Option String := none
  ageMin : Option Int := none
  ageMax : Option Int := none
  gender : Option String := none
  diagnosis : Option String := none
  limit : Option Nat := none
deriving Repr, DecidableEq

/-- JavaScript truthiness of an optional string option (`if (options.x)`):
absent and empty both skip the predicate. -/
def optTruthy : Option String → Option String
  | some s => if s = "" then none else some s
  | none => none

/-- One guarded filter stage: apply the predicate when the guard is
present, otherwise pass the list through. -/
def condFilter {α : Type} (g : Option α) (p : α → EHRRecord → Bool)
    (l : List EHRRecord) : List EHRRecord :=
  match g with
  | some c => l.filter (p c)
  | none => l

/-- Condition predicate: case-insensitive substring match against any
symptom. -/
def condPred (c : String) (r : EHRRecord) : Bool :=
  r.symptoms.any (fun s => includesStr (lowerStr s) (lowerStr c))

/-- Medication predicate: case-insensitive substring match against any
medication-history entry. -/
def medPred (m : String) (r : EHRRecord) : Bool :=
  r.medicationHistory.any (fun s => includesStr (lowerStr s) (lowerStr m))

/-- Region predicate: case-insensitive substring match against the region. -/
def regPred (v : String) (r : EHRRecord) : Bool :=
  includesStr (lowerStr r.region) (lowerStr v)

/-- Minimum-age predicate (inclusive). -/
def minPred (m : Int) (r : EHRRecord) : Bool :=
  r.age ≥ m

/-- Maximum-age predicate (inclusive). -/
def maxPred (m : Int) (r : EHRRecord) : Bool :=
  r.age ≤ m

/-- Gender predicate: exact case-insensitive equality. -/
def genderPred (g : String) (r : EHRRecord) : Bool :=
  lowerStr r.gender = lowerStr g

/-- Diagnosis predicate: case-insensitive substring match against any past
visit's diagnosis. -/
def diagPred (d : String) (r : EHRRecord) : Bool :=
  r.pastVisits.any (fun v => includesStr (lowerStr v.diagnosis) (lowerStr d))

/-- The sequential predicate chain of `searchRecords`, innermost first in
source order: condition, medication, region, ageMin, ageMax, gender,
diagnosis.  Numeric options are guarded by `!== undefined`, string options
by truthiness. -/
def applyFilters (o : SearchOptions) (rs : List EHRRecord) : List EHRRecord :=
  condFilter (optTruthy o.diagnosis) diagPred
    (condFilter (optTruthy o.gender) genderPred
      (condFilter o.ageMax maxPred
        (condFilter o.ageMin minPred
          (condFilter (optTruthy o.region) regPred
            (condFilter (optTruthy o.medication) medPred
              (condFilter (optTruthy o.condition) condPred rs))))))

/-- Data service `searchRecords`: filter then `slice(0, limit)` with the
falsy-fallback `options.limit || 50`. -/
def searchRecords (o : SearchOptions) (rs : List EHRRecord) : List EHRRecord :=
  let limit := match o.limit with
    | some n => if n = 0 then 50 else n
    | none => 50
  (applyFilters o rs).take limit

end DataService

namespace QueryRoute

/-! ## Query language parser (route `parseSimpleSQL`)

Each JavaScript regular expression of the parser becomes one searcher.
`String.prototype.match` without the global flag finds the leftmost
starting position at which the pattern can match; at a given position,
greedy pieces try longer consumptions first and lazy pieces shorter ones,
later choice points backtracking before earlier ones.  The searchers below
realise exactly that strategy: choice lists are ordered, and
`List.findSome?` takes the first alternative that lets the rest of the
pattern succeed. -/

/-- Case-insensitive literal: consume `lit`, return the rest. -/
def dropLitCI : List Char → List Char → Option (List Char)
  | [], s => some s
  | _ :: _, [] => none
  | l :: ls, c :: cs => if lowerChar c = lowerChar l then dropLitCI ls cs else none

/-- Greedy `p+`: the rests after consuming at least one `p`-character,
longest consumption first. -/
def greedyRests (p : Char → Bool) : List Char → List (List Char)
  | [] => []
  | c :: cs => if p c then greedyRests p cs ++ [cs] else []

/-- Greedy `p*`: as `greedyRests`, with the consume-nothing rest last. -/
def greedyRests0 (p : Char → Bool) (s : List Char) : List (List Char) :=
  greedyRests p s ++ [s]

/-- Lazy `(.+?)`: capture/rest pairs, shortest capture first; `.` does not
match a newline. -/
def lazySplits : List Char → List (List Char × List Char)
  | [] => []
  | c :: cs =>
    if c = '\n' then []
    else ([c], cs) :: (lazySplits cs).map (fun p => (c :: p.1, p.2))

/-- Leftmost-match search: try the position matcher at every suffix, the
empty suffix included (for patterns that can match at the very end). -/
def scanFor {α : Type} (f : List Char → Option α) : List Char → Option α
  | [] => f []
  | c :: cs =>
    match f (c :: cs) with
    | some r => some r
    | none => scanFor f cs

/-- `['"]?` choices at a position: take the quote if present (greedy),
else leave the input; ordered take-first. -/
def quoteChoices (s : List Char) : List (List Char) :=
  match s with
  | c :: cs => if c = Char.ofNat 39 || c = Char.ofNat 34 then [cs, c :: cs] else [c :: cs]
  | [] => [[]]

/-- `%?` choices at a position, greedy. -/
def pctChoices (s : List Char) : List (List Char) :=
  match s with
  | '%' :: cs => [cs, '%' :: cs]
  | s => [s]

/-- The `[^'"]` class. -/
def notQuote (c : Char) : Bool :=
  c ≠ Char.ofNat 39 && c ≠ Char.ofNat 34

/-- Position matcher for `SELECT\s+(.+?)\s+FROM` (flag `i`): returns the
lazy capture. -/
def selectAt (s : List Char) : Option (List Char) :=
  match dropLitCI "SELECT".data s with
  | none => none
  | some s1 =>
    (greedyRests isSpaceChar s1).findSome? (fun s2 =>
      (lazySplits s2).findSome? (fun cr =>
        ((greedyRests isSpaceChar cr.2).findSome? (fun s3 => dropLitCI "FROM".data s3)).map
          (fun _ => cr.1)))

/-- Can `\s+KW` match at this position (one alternative of the
non-capturing clause terminator)? -/
def kwStop (kw : String) (s : List Char) : Bool :=
  ((greedyRests isSpaceChar s).findSome? (fun r => dropLitCI kw.data r)).isSome

/-- The clause terminator `(?:\s+GROUP|\s+ORDER|\s+LIMIT|$)` of the WHERE
regex. -/
def whereStop (s : List Char) : Bool :=
  kwStop "GROUP" s || kwStop "ORDER" s || kwStop "LIMIT" s || s.isEmpty

/-- Position matcher for `WHERE\s+(.+?)(?:\s+GROUP|\s+ORDER|\s+LIMIT|$)`
(flag `i`): returns the lazy capture. -/
def whereAt (s : List Char) : Option (List Char) :=
  match dropLitCI "WHERE".data s with
  | none => none
  | some s1 =>
    (greedyRests isSpaceChar s1).findSome? (fun s2 =>
      (lazySplits s2).findSome? (fun cr => if whereStop cr.2 then some cr.1 else none))

/-- Position matcher for `GROUP\s+BY\s+(\w+)` (flag `i`): returns the word
capture. -/
def groupAt (s : List Char) : Option (List Char) :=
  match dropLitCI "GROUP".data s with
  | none => none
  | some s1 =>
    (greedyRests isSpaceChar s1).findSome? (fun s2 =>
      match dropLitCI "BY".data s2 with
      | none => none
      | some s3 =>
        (greedyRests isSpaceChar s3).findSome? (fun s4 =>
          let w := s4.takeWhile isWordChar
          if w.isEmpty then none else some w))

/-- Position matcher for `LIMIT\s+(\d+)` (flag `i`): returns the digit
capture. -/
def limitAt (s : List Char) : Option (List Char) :=
  match dropLitCI "LIMIT".data s with
  | none => none
  | some s1 =>
    (greedyRests isSpaceChar s1).findSome? (fun s2 =>
      let d := s2.takeWhile isDigitChar
      if d.isEmpty then none else some d)

/-- Position matcher for `(\w+)\s*=\s*['"]?([^'"]+)['"]?` (flag `i`):
returns (field capture, value capture).  The trailing `['"]?` always
matches and is not materialised.  Note that the greedy `[^'"]+` runs to
the next quote or the end of the condition, so an unquoted value keeps
everything up to there. -/
def eqAt (s : List Char) : Option (List Char × List Char) :=
  let w := s.takeWhile isWordChar
  let s1 := s.dropWhile isWordChar
  if w.isEmpty then none
  else
    (greedyRests0 isSpaceChar s1).findSome? (fun s2 =>
      match s2 with
      | '=' :: s3 =>
        (greedyRests0 isSpaceChar s3).findSome? (fun s4 =>
          (quoteChoices s4).findSome? (fun s5 =>
            let v := s5.takeWhile notQuote
            if v.isEmpty then none else some (w, v)))
      | _ => none)

/-- Position matcher for `(\w+)\s+LIKE\s+['"]?%?([^'"]+)%?['"]?` (flag
`i`): returns (field capture, value capture).  The greedy `[^'"]+` runs to
the next quote or the end, so the character after it can never be `%`: the
trailing `%?` always matches emptily and the trailing `%` of a quoted
`'%value%'` pattern stays inside the captured value.  Only the leading `%`
is stripped (by the `%?` before the capture group). -/
def likeAt (s : List Char) : Option (List Char × List Char) :=
  let w := s.takeWhile isWordChar
  let s1 := s.dropWhile isWordChar
  if w.isEmpty then none
  else
    (greedyRests isSpaceChar s1).findSome? (fun s2 =>
      match dropLitCI "LIKE".data s2 with
      | none => none
      | some s3 =>
        (greedyRests isSpaceChar s3).findSome? (fun s4 =>
          (quoteChoices s4).findSome? (fun s5 =>
            (pctChoices s5).findSome? (fun s6 =>
              let v := s6.takeWhile notQuote
              if v.isEmpty then none else some (w, v)))))

/-- Separator matcher for `split(/\s+AND\s+/i)` at a position: whitespace,
`AND`, whitespace; returns the rest after the (greedy) separator. -/
def sepAND (s : List Char) : Option (List Char) :=
  (greedyRests isSpaceChar s).findSome? (fun s1 =>
    match dropLitCI "AND".data s1 with
    | none => none
    | some s2 => (greedyRests isSpaceChar s2).findSome? (fun s3 => some s3))

/-- Worker for the AND-split: scan left to right, cutting at each
separator match.  `fuel` bounds the recursion by the input length; every
step consumes at least one character. -/
def splitCondsGo : Nat → List Char → List Char → List (List Char)
  | 0, cur, _ => [cur.reverse]
  | _ + 1, cur, [] => [cur.reverse]
  | fuel + 1, cur, c :: cs =>
    match sepAND (c :: cs) with
    | some rest => cur.reverse :: splitCondsGo fuel [] rest
    | none => splitCondsGo fuel (c :: cur) cs

/-- The WHERE clause split on `/\s+AND\s+/i`. -/
def splitConds (s : List Char) : List (List Char) :=
  splitCondsGo (s.length + 1) [] s

/-- The structured query plan (`parseSimpleSQL`'s result type).  The
source's `where` object is `whereMap` here (`where` is reserved in
Lean). -/
structure ParsedSQL where
  select : List String
  whereMap : List (String × String)
  groupBy : Option String
  limit : Option Nat
deriving Repr, DecidableEq

/-- Processing of one WHERE condition: the equality match is tried and
stored, then the LIKE match is tried and stored (both may fire; the later
store wins).  Field names are lowercased; values are stored verbatim.  A
condition matching neither shape leaves the map unchanged. -/
def applyCondition (m : List (String × String)) (c : List Char) : List (String × String) :=
  let m1 := match scanFor eqAt c with
    | some kv => upsert m (lowerStr (String.mk kv.1)) (String.mk kv.2)
    | none => m
  match scanFor likeAt c with
  | some kv => upsert m1 (lowerStr (String.mk kv.1)) (String.mk kv.2)
  | none => m1

/-- Route `parseSimpleSQL`: trim, then extract the SELECT list, the WHERE
map, the lowercased GROUP BY field and the LIMIT number, each degrading to
its default when its pattern finds no match. -/
def parseSimpleSQL (query : String) : ParsedSQL :=
  let nq := trimStr query.data
  let select := match scanFor selectAt nq with
    | some cap => (splitOnChar ',' cap).map (fun f => String.mk (trimStr f))
    | none => ["*"]
  let wm := match scanFor whereAt nq with
    | some conds => (splitConds conds).foldl applyCondition []
    | none => []
  let gb := (scanFor groupAt nq).map (fun w => lowerStr (String.mk w))
  let lim := (scanFor limitAt nq).map digitsToNat
  { select := select, whereMap := wm, groupBy := gb, limit := lim }

end QueryRoute

namespace QueryRoute

/-! ## Query responses

`QueryResponse.data` is flattened; `stats.queryTime` (wall clock) is
outside the embedding and omitted.  A success response carries either a
record slice or an aggregation table plus `totalMatched`; an error
response carries a message. -/

/-- The route's `QueryResponse`, minus `queryTime`. -/
structure QueryResponse where
  success : Bool
  records : Option (List EHRRecord)
  aggregations : Option (List (String × Nat))
  totalMatched : Option Nat
  error : Option String
deriving Repr, DecidableEq

/-! ## Filter executor (route `executeFilterQuery`) -/

/-- The `filters` object of a filter request. -/
structure FilterFields where
  ageMin : Option Int := none
  ageMax : Option Int := none
  condition : Option String := none
  medication : Option String := none
  region : Option String := none
  gender : Option String := none
  diagnosis : Option String := none
deriving Repr, DecidableEq

/-- A filter request (`type: "filter"`). -/
structure FilterRequest where
  filters : FilterFields
  limit : Option Nat := none
deriving Repr, DecidableEq

/-- The route's sentinel mapping `f && f !== "all" ? f : undefined`:
absent, empty and the literal `"all"` all become absent. -/
def normAll : Option String → Option String
  | some s => if s ≠ "" && s ≠ "all" then some s else none
  | none => none

/-- The `searchRecords` options built by `executeFilterQuery`: sentinel
mapping on the five string filters, ages passed through, and the request
limit defaulted to 100 when absent (the destructuring default `limit =
100` applies only to `undefined`, so an explicit 0 is passed on). -/
def optionsOfFilterRequest (req : FilterRequest) : DataService.SearchOptions :=
  { condition := normAll req.filters.condition
    medication := normAll req.filters.medication
    region := normAll req.filters.region
    gender := normAll req.filters.gender
    diagnosis := normAll req.filters.diagnosis
    ageMin := req.filters.ageMin
    ageMax := req.filters.ageMax
    limit := some (req.limit.getD 100) }

/-- Route `executeFilterQuery`: search, then report the returned slice and
`totalMatched := records.length` — the length of the already-limited
slice. -/
def executeFilterQuery (req : FilterRequest) (allRecords : List EHRRecord) : QueryResponse :=
  let records := DataService.searchRecords (optionsOfFilterRequest req) allRecords
  { success := true, records := some records, aggregations := none
    totalMatched := some records.length, error := none }

/-! ## SQL executor (route `executeSQLQuery`) -/

/-- Route `getAgeGroup` (distinct from the data service's): buckets at
20/40/60/80. -/
def getAgeGroup (age : Int) : String :=
  if age < 20 then "0-19"
  else if age < 40 then "20-39"
  else if age < 60 then "40-59"
  else if age < 80 then "60-79"
  else "80+"

/-- The WHERE predicate chain of `executeSQLQuery`, in source order:
age (parsed with `parseInt`, an unparsable value matching nothing), age
group (exact match on the route's buckets), gender (exact,
case-insensitive), region (substring), condition-or-symptom (substring on
any symptom), medication (substring on any history entry).  Every lookup
is truthiness-guarded. -/
def whereFilter (m : List (String × String)) (rs : List EHRRecord) : List EHRRecord :=
  let rs := match getTruthy m "age" with
    | some v =>
      match jsParseInt v with
      | some n => rs.filter (fun r => r.age = n)
      | none => rs.filter (fun _ => false)
    | none => rs
  let rs := match (getTruthy m "age_group").orElse (fun _ => getTruthy m "agegroup") with
    | some ag => rs.filter (fun r => getAgeGroup r.age = ag)
    | none => rs
  let rs := match getTruthy m "gender" with
    | some g => rs.filter (fun r => lowerStr r.gender = lowerStr g)
    | none => rs
  let rs := match getTruthy m "region" with
    | some v => rs.filter (fun r => includesStr (lowerStr r.region) (lowerStr v))
    | none => rs
  let rs := match (getTruthy m "condition").orElse (fun _ => getTruthy m "symptom") with
    | some c => rs.filter (fun r => r.symptoms.any (fun s => includesStr (lowerStr s) (lowerStr c)))
    | none => rs
  match getTruthy m "medication" with
  | some v => rs.filter (fun r => r.medicationHistory.any (fun s => includesStr (lowerStr s) (lowerStr v)))
  | none => rs

/-- The GROUP BY key of `executeSQLQuery`: the route's age buckets for
`age_group`/`agegroup`/`age`, gender and region verbatim, anything else
`"unknown"`. -/
def sqlGroupKey (g : String) (r : EHRRecord) : String :=
  if g = "age_group" || g = "agegroup" || g = "age" then getAgeGroup r.age
  else if g = "gender" then r.gender
  else if g = "region" then r.region
  else "unknown"

/-- Route `executeSQLQuery`: parse, filter, then either tally by the
group key (returning no record slice) or slice to `parsed.limit || 100`.
`totalMatched` is the full filtered count in both branches. -/
def executeSQLQuery (query : String) (allRecords : List EHRRecord) : QueryResponse :=
  let parsed := parseSimpleSQL query
  let filtered := whereFilter parsed.whereMap allRecords
  match parsed.groupBy with
  | some g =>
    let aggs := filtered.foldl (fun a r => bump a (sqlGroupKey g r)) []
    { success := true, records := none, aggregations := some aggs
      totalMatched := some filtered.length, error := none }
  | none =>
    let limit := match parsed.limit with
      | some n => if n = 0 then 100 else n
      | none => 100
    { success := true, records := some (filtered.take limit), aggregations := none
      totalMatched := some filtered.length, error := none }

/-- The SQL request path through the route including the data load: the
records come from `loadEHRData` (with its cache state and read outcome),
and the response is built by `executeSQLQuery`.  `loadEHRData` catches its
own read errors, so this path always produces a success response. -/
def sqlRoute (query : String) (readResult : Except String String) (now : Nat)
    (st : DataService.CacheState) : QueryResponse × DataService.CacheState :=
  let rs := DataService.loadEHRData readResult now st
  (executeSQLQuery query rs.1, rs.2)

/-! ## Aggregate executor (route `executeAggregateQuery`) -/

/-- The `groupBy` union of an aggregate request. -/
inductive AggGroupBy
  | age
  | gender
  | region
  | condition
  | medication
deriving Repr, DecidableEq

/-- The optional `filter` object of an aggregate request. -/
structure AggFilter where
  condition : Option String := none
  region : Option String := none
  gender : Option String := none
deriving Repr, DecidableEq

/-- An aggregate request (`type: "aggregate"`). -/
structure AggregateRequest where
  groupBy : AggGroupBy
  filter : Option AggFilter := none
deriving Repr, DecidableEq

/-- The pre-group filter of `executeAggregateQuery`: condition (substring
on any symptom), region (substring), gender (exact, case-insensitive),
each truthiness-guarded through the optional-chaining `filter?.x`. -/
def aggFiltered (f : Option AggFilter) (rs : List EHRRecord) : List EHRRecord :=
  let fl := f.getD {}
  let rs := match DataService.optTruthy fl.condition with
    | some c => rs.filter (fun r => r.symptoms.any (fun s => includesStr (lowerStr s) (lowerStr c)))
    | none => rs
  let rs := match DataService.optTruthy fl.region with
    | some v => rs.filter (fun r => includesStr (lowerStr r.region) (lowerStr v))
    | none => rs
  match DataService.optTruthy fl.gender with
  | some g => rs.filter (fun r => lowerStr r.gender = lowerStr g)
  | none => rs

/-- One record's contribution to the aggregation table: a single bump for
age bucket, gender or region; one bump per symptom for `condition`; one
bump per history entry for `medication`. -/
def aggStep (g : AggGroupBy) (a : List (String × Nat)) (r : EHRRecord) : List (String × Nat) :=
  match g with
  | .age => bump a (getAgeGroup r.age)
  | .gender => bump a r.gender
  | .region => bump a r.region
  | .condition => r.symptoms.foldl bump a
  | .medication => r.medicationHistory.foldl bump a

/-- Route `executeAggregateQuery`: filter, tally, sort the table by
descending count, and report `totalMatched` as the filtered count. -/
def executeAggregateQuery (req : AggregateRequest) (allRecords : List EHRRecord) :
    QueryResponse :=
  let filtered := aggFiltered req.filter allRecords
  let aggs := filtered.foldl (aggStep req.groupBy) []
  { success := true, records := none, aggregations := some (sortDesc aggs)
    totalMatched := some filtered.length, error := none }

end QueryRoute

/-! ## Helper lemmas -/

theorem trimStr_of_all_space (l : List Char) (h : l.all isSpaceChar = true) :
    trimStr l = [] := by
  have h1 : l.dropWhile isSpaceChar = [] := by
    rw [List.dropWhile_eq_nil_iff]
    intro x hx
    exact List.all_eq_true.mp h x hx
  simp [trimStr, h1]

theorem condFilter_sublist {α : Type} (g : Option α) (p : α → EHRRecord → Bool)
    {l1 l2 : List EHRRecord} (h : List.Sublist l1 l2) :
    List.Sublist (DataService.condFilter g p l1) (DataService.condFilter g p l2) := by
  cases g with
  | some c => exact h.filter (p c)
  | none => exact h

theorem condFilter_self {α : Type} (g : Option α) (p : α → EHRRecord → Bool)
    (l : List EHRRecord) : List.Sublist (DataService.condFilter g p l) l := by
  cases g with
  | some c => exact List.filter_sublist l
  | none => exact List.Sublist.refl l

theorem sumCounts_bump (l : List (String × Nat)) (k : String) :
    sumCounts (bump l k) = sumCounts l + 1 := by
  induction l with
  | nil => simp [bump, sumCounts]
  | cons p rest ih =>
    obtain ⟨k0, n⟩ := p
    by_cases hk : k0 = k
    · simp [bump, hk, sumCounts]
      omega
    · simp [bump, hk, sumCounts] at ih ⊢
      omega

theorem sumCounts_foldl_bump (ks : List String) (a : List (String × Nat)) :
    sumCounts (ks.foldl bump a) = sumCounts a + ks.length := by
  induction ks generalizing a with
  | nil => simp
  | cons k ks ih => simp [List.foldl_cons, ih, sumCounts_bump]; omega

theorem insertDesc_perm (x : String × Nat) (l : List (String × Nat)) :
    List.Perm (insertDesc x l) (x :: l) := by
  induction l with
  | nil => exact List.Perm.refl _
  | cons y ys ih =>
    by_cases h : y.2 ≤ x.2
    · simp [insertDesc, h]
    · simp only [insertDesc, h, if_neg, ite_false]
      exact (ih.cons y).trans (List.Perm.swap x y ys)

theorem sortDesc_perm (l : List (String × Nat)) : List.Perm (sortDesc l) l := by
  induction l with
  | nil => exact List.Perm.refl _
  | cons x xs ih =>
    exact (insertDesc_perm x (sortDesc xs)).trans (ih.cons x)

theorem sumCounts_sortDesc (l : List (String × Nat)) :
    sumCounts (sortDesc l) = sumCounts l :=
  ((sortDesc_perm l).map Prod.snd).sum_eq

theorem whereFilter_nil (m : List (String × String)) :
    QueryRoute.whereFilter m [] = [] := by
  unfold QueryRoute.whereFilter
  repeat' (first | rfl | simp only [List.filter_nil] | split)

/-! ## Concrete example data used by counterexamples and witnesses -/

open QueryRoute

/-- A record whose symptoms are the two chronic conditions of the spec's
example scenario 2. -/
def diabetesRecord : EHRRecord :=
  { fullName := "Alice Sato", age := 55, gender := "Male", region := "Kanto"
    address := "1-2-3 Tokyo", symptoms := ["Diabetes", "Hypertension"]
    medicationHistory := ["Metformin"]
    pastVisits := [{ date := "2024-10-06", diagnosis := "Fever" }]
    phoneNumber := "555-0001", insuranceId := "INS-1" }

/-- A 25-year-old record, for the age-bucket comparison. -/
def youngRecord : EHRRecord :=
  { fullName := "Ben Kato", age := 25, gender := "Female", region := "Kansai"
    address := "4-5-6 Osaka", symptoms := [], medicationHistory := []
    pastVisits := [], phoneNumber := "555-0002", insuranceId := "INS-2" }

/-- A 70-year-old record. -/
def seniorRecord : EHRRecord :=
  { fullName := "Chie Ito", age := 70, gender := "Female", region := "Hokkaido"
    address := "7-8-9 Sapporo", symptoms := ["Asthma"], medicationHistory := []
    pastVisits := [], phoneNumber := "555-0003", insuranceId := "INS-3" }

/-- Three records, all matched by an empty filter set. -/
def threeRecords : List EHRRecord :=
  [diabetesRecord, youngRecord, seniorRecord]

/-! ## Claim C8 -/

/-- C8: the textual query parser is total (it is a Lean function, raising
nothing by construction), and parsing an empty or whitespace-only query
yields the default plan: select `["*"]`, an empty predicate map, no
group-by and no limit. -/
theorem C8_empty_query_defaults (q : String) (h : q.data.all isSpaceChar = true) :
    parseSimpleSQL q = { select := ["*"], whereMap := [], groupBy := none, limit := none } := by
  have hnq : trimStr q.data = [] := trimStr_of_all_space q.data h
  unfold parseSimpleSQL
  rw [hnq]
  rfl

/-- Witness for C8 at the whitespace-only query made of a space, a tab and
a newline (and, separately checkable, the empty string is covered by the
same theorem). -/
theorem C8_empty_query_defaults_witness :
    (" \t\n".data.all isSpaceChar = true)
    ∧ parseSimpleSQL " \t\n"
        = { select := ["*"], whereMap := [], groupBy := none, limit := none } :=
  ⟨by decide, C8_empty_query_defaults " \t\n" (by decide)⟩

/-! ## Claim C9 -/

/-- One of the five string filter fields of a filter request. -/
inductive StrFilterField
  | condition
  | medication
  | region
  | gender
  | diagnosis
deriving Repr, DecidableEq

/-- Set one string filter field of a `FilterFields`. -/
def setStrFilter (f : FilterFields) : StrFilterField → Option String → FilterFields
  | .condition, v => { f with condition := v }
  | .medication, v => { f with medication := v }
  | .region, v => { f with region := v }
  | .gender, v => { f with gender := v }
  | .diagnosis, v => { f with diagnosis := v }

/-- C9: for every filter request, setting any of the condition,
medication, region, gender or diagnosis fields to the sentinel `"all"`
produces exactly the same response as omitting the field (the wall-clock
`queryTime` being outside the model). -/
theorem C9_all_sentinel (recs : List EHRRecord) (f : FilterFields) (lim : Option Nat)
    (fld : StrFilterField) :
    executeFilterQuery { filters := setStrFilter f fld (some "all"), limit := lim } recs
      = executeFilterQuery { filters := setStrFilter f fld none, limit := lim } recs := by
  cases fld <;> rfl

/-! ## Claim C10 -/

/-- C10: an explicit limit of 0 is never honoured as zero rows.  A filter
request with `limit = 0` passes 0 through to the search layer, whose falsy
fallback `options.limit || 50` slices to 50; a textual query whose parsed
plan carries `LIMIT 0` falls into the executor's fallback
`parsed.limit || 100` and slices to 100. -/
theorem C10_zero_limit_fallbacks (recs : List EHRRecord) (f : FilterFields) (q : String)
    (h0 : (parseSimpleSQL q).limit = some 0) (hg : (parseSimpleSQL q).groupBy = none) :
    (executeFilterQuery { filters := f, limit := some 0 } recs).records
      = some ((DataService.applyFilters
          (optionsOfFilterRequest { filters := f, limit := some 0 }) recs).take 50)
    ∧ (executeSQLQuery q recs).records
      = some ((whereFilter (parseSimpleSQL q).whereMap recs).take 100) := by
  constructor
  · rfl
  · simp [executeSQLQuery, hg, h0]

/-- Witness for C10 on a three-record dataset: both requests return all
three records rather than an empty slice. -/
theorem C10_zero_limit_fallbacks_witness :
    ((parseSimpleSQL "SELECT * FROM ehr_records LIMIT 0").limit = some 0
      ∧ (parseSimpleSQL "SELECT * FROM ehr_records LIMIT 0").groupBy = none)
    ∧ (executeFilterQuery { filters := {}, limit := some 0 } threeRecords).records
        = some ((DataService.applyFilters
            (optionsOfFilterRequest { filters := {}, limit := some 0 }) threeRecords).take 50)
    ∧ (executeSQLQuery "SELECT * FROM ehr_records LIMIT 0" threeRecords).records
        = some ((whereFilter
            (parseSimpleSQL "SELECT * FROM ehr_records LIMIT 0").whereMap threeRecords).take 100) :=
  ⟨⟨by decide, by decide⟩,
    C10_zero_limit_fallbacks threeRecords {} "SELECT * FROM ehr_records LIMIT 0"
      (by decide) (by decide)⟩

/-! ## Claim C4 -/

/-- C4 counterexample: the query `WHERE condition LIKE '%abet%'` does NOT
match the record with symptoms `["Diabetes", "Hypertension"]`, because the
parser stores the predicate value `"abet%"` — the trailing `%` is not
stripped (the greedy `[^'"]+` of the LIKE regex consumes it), and no
symptom contains the substring `"abet%"`. -/
theorem C4_like_counterexample :
    (parseSimpleSQL "SELECT * FROM ehr_records WHERE condition LIKE '%abet%'").whereMap
      = [("condition", "abet%")]
    ∧ (executeSQLQuery "SELECT * FROM ehr_records WHERE condition LIKE '%abet%'"
        [diabetesRecord]).records = some []
    ∧ ("abet%" : String) ≠ "abet" := by
  refine ⟨by decide, by decide, by decide⟩

/-- C4 amended: the equality query `WHERE condition = 'Diabetes'` matches
the record with symptoms `["Diabetes", "Hypertension"]`; the query
`WHERE condition LIKE '%abet%'` does NOT match it: the parser strips the
leading `%` but not the trailing one, storing the predicate value
`"abet%"`; and a WHERE condition matching neither the equality shape nor
the LIKE shape leaves the predicate map unchanged (it is silently
dropped). -/
theorem C4_where_shapes_amended (m : List (String × String)) (c : List Char)
    (heq : scanFor eqAt c = none) (hlike : scanFor likeAt c = none) :
    (executeSQLQuery "SELECT * FROM ehr_records WHERE condition = 'Diabetes'"
        [diabetesRecord]).records = some [diabetesRecord]
    ∧ (parseSimpleSQL "SELECT * FROM ehr_records WHERE condition LIKE '%abet%'").whereMap
      = [("condition", "abet%")]
    ∧ (executeSQLQuery "SELECT * FROM ehr_records WHERE condition LIKE '%abet%'"
        [diabetesRecord]).records = some []
    ∧ applyCondition m c = m := by
  refine ⟨by decide, by decide, by decide, ?_⟩
  unfold applyCondition
  rw [heq, hlike]

/-- Witness for C4's amended claim at the unrecognised condition shape
`"status IS NULL"` (no `=`, no `LIKE`), which leaves a one-entry predicate
map unchanged. -/
theorem C4_where_shapes_amended_witness :
    (scanFor eqAt "status IS NULL".data = none
      ∧ scanFor likeAt "status IS NULL".data = none)
    ∧ applyCondition [("gender", "Male")] "status IS NULL".data = [("gender", "Male")] :=
  ⟨⟨by decide, by decide⟩,
    (C4_where_shapes_amended [("gender", "Male")] "status IS NULL".data
      (by decide) (by decide)).2.2.2⟩

/-! ## Claim C3 -/

/-- C3 counterexample: for a 25-year-old record, the SQL executor's
GROUP BY age tally lands in the bucket `"20-39"`, whereas the data
service's own bucketing (the one section 4.3 describes, `<30` mapping to
`"18-29"`) would put age 25 into `"18-29"`.  The executor does not use
the section-4.3 buckets. -/
theorem C3_age_buckets_counterexample :
    (executeSQLQuery "SELECT * FROM ehr_records GROUP BY age" [youngRecord]).aggregations
      = some [("20-39", 1)]
    ∧ DataService.getAgeGroup youngRecord.age = "18-29"
    ∧ ("20-39" : String) ≠ "18-29" :=
  ⟨by decide, by decide, by decide⟩

/-- Age bucketing as the amended claim words it: under 20 to `"0-19"`,
under 40 to `"20-39"`, under 60 to `"40-59"`, under 80 to `"60-79"`, else
`"80+"` — stated independently here to compare with the executor. -/
def ageBucketAmended (age : Int) : String :=
  if age < 20 then "0-19"
  else if age < 40 then "20-39"
  else if age < 60 then "40-59"
  else if age < 80 then "60-79"
  else "80+"

/-- C3 amended: when a parsed textual query carries a group-by of `age`,
`age_group` or `agegroup`, the executor applies the WHERE predicates
first, then tallies the filtered records into the 20/40/60/80 age buckets
(`"0-19"`, `"20-39"`, `"40-59"`, `"60-79"`, `"80+"` — the route's own
bucketing, not section 4.3's), and returns only counts: no record
slice. -/
theorem C3_group_by_age_amended (q : String) (recs : List EHRRecord) (g : String)
    (hg : (parseSimpleSQL q).groupBy = some g)
    (hage : g = "age" ∨ g = "age_group" ∨ g = "agegroup") :
    (executeSQLQuery q recs).records = none
    ∧ (executeSQLQuery q recs).aggregations
        = some ((whereFilter (parseSimpleSQL q).whereMap recs).foldl
            (fun a r => bump a (ageBucketAmended r.age)) [])
    ∧ (executeSQLQuery q recs).totalMatched
        = some (whereFilter (parseSimpleSQL q).whereMap recs).length := by
  have hfun : (fun (a : List (String × Nat)) (r : EHRRecord) => bump a (sqlGroupKey g r))
      = fun a r => bump a (ageBucketAmended r.age) := by
    funext a r
    rcases hage with h | h | h <;> subst h <;> rfl
  simp [executeSQLQuery, hg, hfun]

/-- Witness for C3's amended claim at `GROUP BY age` over the three
example records (ages 55, 25 and 70). -/
theorem C3_group_by_age_amended_witness :
    ((parseSimpleSQL "SELECT * FROM ehr_records GROUP BY age").groupBy = some "age")
    ∧ (executeSQLQuery "SELECT * FROM ehr_records GROUP BY age" threeRecords).records = none
    ∧ (executeSQLQuery "SELECT * FROM ehr_records GROUP BY age" threeRecords).aggregations
        = some ((whereFilter
            (parseSimpleSQL "SELECT * FROM ehr_records GROUP BY age").whereMap
            threeRecords).foldl (fun a r => bump a (ageBucketAmended r.age)) [])
    ∧ (executeSQLQuery "SELECT * FROM ehr_records GROUP BY age" threeRecords).totalMatched
        = some (whereFilter
            (parseSimpleSQL "SELECT * FROM ehr_records GROUP BY age").whereMap
            threeRecords).length :=
  ⟨by decide,
    C3_group_by_age_amended "SELECT * FROM ehr_records GROUP BY age" threeRecords "age"
      (by decide) (Or.inl rfl)⟩

/-! ## Claim C1 -/

/-- C1 counterexample: with no predicates all three records match, yet a
filter request with limit 2 reports `totalMatched = 2` — the length of the
already-limited slice, not the full filtered count of 3. -/
theorem C1_total_matched_counterexample :
    (executeFilterQuery { filters := {}, limit := some 2 } threeRecords).totalMatched
      = some 2
    ∧ DataService.applyFilters
        (optionsOfFilterRequest { filters := {}, limit := some 2 }) threeRecords
      = threeRecords
    ∧ threeRecords.length = 3
    ∧ (2 : Nat) ≠ 3 :=
  ⟨by decide, by decide, by decide, by decide⟩

/-- The effective slice bound of the filter path: the route defaults an
absent limit to 100, and the search layer's `options.limit || 50` turns an
explicit 0 into 50. -/
def effFilterLimit : Option Nat → Nat
  | none => 100
  | some 0 => 50
  | some (n + 1) => n + 1

/-- The effective slice bound of the SQL path: `parsed.limit || 100`. -/
def effSqlLimit : Option Nat → Nat
  | none => 100
  | some 0 => 100
  | some (n + 1) => n + 1

/-- C1 amended: for sql-type requests the claim holds as stated —
`totalMatched` equals the full filtered count before the limit, and the
returned slice length is `min(totalMatched, limit)` with the limit
defaulting to 100.  For filter-type requests, however, `totalMatched`
equals the length of the returned slice, i.e. `min(full filtered count,
limit)` with the limit defaulting to 100 when unset — not the full
filtered count. -/
theorem C1_total_matched_amended (recs : List EHRRecord) (req : FilterRequest) (q : String)
    (hg : (parseSimpleSQL q).groupBy = none) :
    ((executeFilterQuery req recs).records
        = some ((DataService.applyFilters (optionsOfFilterRequest req) recs).take
            (effFilterLimit req.limit))
      ∧ (executeFilterQuery req recs).totalMatched
        = some (min (DataService.applyFilters (optionsOfFilterRequest req) recs).length
            (effFilterLimit req.limit)))
    ∧ ((executeSQLQuery q recs).totalMatched
        = some (whereFilter (parseSimpleSQL q).whereMap recs).length
      ∧ (executeSQLQuery q recs).records.map List.length
        = some (min (whereFilter (parseSimpleSQL q).whereMap recs).length
            (effSqlLimit (parseSimpleSQL q).limit))) := by
  constructor
  · have hlim : (match (optionsOfFilterRequest req).limit with
        | some n => if n = 0 then 50 else n
        | none => 50) = effFilterLimit req.limit := by
      match h : req.limit with
      | none => simp [optionsOfFilterRequest, h, effFilterLimit]
      | some 0 => simp [optionsOfFilterRequest, h, effFilterLimit]
      | some (n + 1) =>
        simp [optionsOfFilterRequest, h, effFilterLimit]
    constructor
    · simp [executeFilterQuery, DataService.searchRecords, hlim]
    · simp [executeFilterQuery, DataService.searchRecords, hlim, List.length_take,
        Nat.min_comm]
  · have hlim : (match (parseSimpleSQL q).limit with
        | some n => if n = 0 then 100 else n
        | none => 100) = effSqlLimit (parseSimpleSQL q).limit := by
      match h : (parseSimpleSQL q).limit with
      | none => simp [h, effSqlLimit]
      | some 0 => simp [h, effSqlLimit]
      | some (n + 1) => simp [h, effSqlLimit]
    constructor
    · simp [executeSQLQuery, hg]
    · simp [executeSQLQuery, hg, hlim, List.length_take, Nat.min_comm]

/-- Witness for C1's amended claim: three matching records, a filter
request with limit 2 and an SQL query with LIMIT 2. -/
theorem C1_total_matched_amended_witness :
    ((parseSimpleSQL "SELECT * FROM ehr_records LIMIT 2").groupBy = none)
    ∧ (((executeFilterQuery { filters := {}, limit := some 2 } threeRecords).records
          = some ((DataService.applyFilters
              (optionsOfFilterRequest { filters := {}, limit := some 2 }) threeRecords).take
                (effFilterLimit (some 2)))
        ∧ (executeFilterQuery { filters := {}, limit := some 2 } threeRecords).totalMatched
          = some (min (DataService.applyFilters
              (optionsOfFilterRequest { filters := {}, limit := some 2 }) threeRecords).length
                (effFilterLimit (some 2))))
      ∧ ((executeSQLQuery "SELECT * FROM ehr_records LIMIT 2" threeRecords).totalMatched
          = some (whereFilter
              (parseSimpleSQL "SELECT * FROM ehr_records LIMIT 2").whereMap threeRecords).length
        ∧ (executeSQLQuery "SELECT * FROM ehr_records LIMIT 2" threeRecords).records.map
            List.length
          = some (min (whereFilter
              (parseSimpleSQL "SELECT * FROM ehr_records LIMIT 2").whereMap
                threeRecords).length
              (effSqlLimit (parseSimpleSQL "SELECT * FROM ehr_records LIMIT 2").limit)))) :=
  ⟨by decide,
    C1_total_matched_amended threeRecords { filters := {}, limit := some 2 }
      "SELECT * FROM ehr_records LIMIT 2" (by decide)⟩

/-! ## Claim C2 -/

/-- C2 counterexample: grouping one record with two symptoms by
`condition` yields group counts summing to 2, while `totalMatched` is 1 —
the multi-valued tallies make the sum exceed the record count. -/
theorem C2_aggregation_sum_counterexample :
    sumCounts ((executeAggregateQuery { groupBy := .condition, filter := none }
        [diabetesRecord]).aggregations.getD []) = 2
    ∧ (executeAggregateQuery { groupBy := .condition, filter := none }
        [diabetesRecord]).totalMatched = some 1
    ∧ (2 : Nat) ≠ 1 :=
  ⟨by decide, by decide, by decide⟩

/-- Total number of symptom entries across a record list. -/
def symptomEntryCount (l : List EHRRecord) : Nat :=
  (l.map (fun r => r.symptoms.length)).sum

/-- Total number of medication-history entries across a record list. -/
def medicationEntryCount (l : List EHRRecord) : Nat :=
  (l.map (fun r => r.medicationHistory.length)).sum

/-- What the group counts of an aggregate response sum to, per the
amended claim: the filtered record count for the single-valued groupings
(age, gender, region), and the total entry count for the multi-valued
ones (condition, medication). -/
def expectedAggSum (g : AggGroupBy) (filtered : List EHRRecord) : Nat :=
  match g with
  | .condition => symptomEntryCount filtered
  | .medication => medicationEntryCount filtered
  | _ => filtered.length

theorem sumCounts_foldl_aggStep (g : AggGroupBy) (rs : List EHRRecord) :
    ∀ a : List (String × Nat),
      sumCounts (rs.foldl (aggStep g) a) = sumCounts a + expectedAggSum g rs := by
  induction rs with
  | nil =>
    intro a
    cases g <;> simp [expectedAggSum, symptomEntryCount, medicationEntryCount]
  | cons r rs ih =>
    intro a
    rw [List.foldl_cons, ih]
    cases g <;>
      simp [aggStep, expectedAggSum, symptomEntryCount, medicationEntryCount,
        sumCounts_bump, sumCounts_foldl_bump] <;>
      omega

/-- C2 amended: in an aggregate response the group counts sum to
`totalMatched` (the pre-group filtered count) when grouping by age,
gender or region; when grouping by `condition` (resp. `medication`) they
instead sum to the total number of symptom (resp. medication-history)
entries across the filtered records, which can differ from
`totalMatched`. -/
theorem C2_aggregation_sum_amended (req : AggregateRequest) (recs : List EHRRecord) :
    sumCounts ((executeAggregateQuery req recs).aggregations.getD [])
      = expectedAggSum req.groupBy (aggFiltered req.filter recs)
    ∧ (executeAggregateQuery req recs).totalMatched
      = some (aggFiltered req.filter recs).length := by
  constructor
  · simp [executeAggregateQuery, sumCounts_sortDesc]
    have h := sumCounts_foldl_aggStep req.groupBy (aggFiltered req.filter recs) []
    simp [sumCounts] at h
    simp [sumCounts]
    omega
  · rfl

/-! ## Claim C7 -/

/-- One AND-composed predicate of a search-options bag, with its value. -/
inductive FilterPred
  | condition (v : String)
  | medication (v : String)
  | region (v : String)
  | ageMin (n : Int)
  | ageMax (n : Int)
  | gender (v : String)
  | diagnosis (v : String)
deriving Repr, DecidableEq

/-- Add one predicate to a search-options bag. -/
def setPred (o : DataService.SearchOptions) : FilterPred → DataService.SearchOptions
  | .condition v => { o with condition := some v }
  | .medication v => { o with medication := some v }
  | .region v => { o with region := some v }
  | .ageMin n => { o with ageMin := some n }
  | .ageMax n => { o with ageMax := some n }
  | .gender v => { o with gender := some v }
  | .diagnosis v => { o with diagnosis := some v }

/-- Remove one predicate (the request without that predicate). -/
def clearPred (o : DataService.SearchOptions) : FilterPred → DataService.SearchOptions
  | .condition _ => { o with condition := none }
  | .medication _ => { o with medication := none }
  | .region _ => { o with region := none }
  | .ageMin _ => { o with ageMin := none }
  | .ageMax _ => { o with ageMax := none }
  | .gender _ => { o with gender := none }
  | .diagnosis _ => { o with diagnosis := none }

/-- C7: for every record set and options bag, adding one more AND-composed
predicate never increases the matched count (the filtered list with the
extra predicate is a sublist of the one without it), and consequently the
returned slice of `searchRecords` is never longer either. -/
theorem C7_filter_monotone (o : DataService.SearchOptions) (p : FilterPred)
    (rs : List EHRRecord) :
    List.Sublist (DataService.applyFilters (setPred o p) rs)
      (DataService.applyFilters (clearPred o p) rs)
    ∧ (DataService.applyFilters (setPred o p) rs).length
      ≤ (DataService.applyFilters (clearPred o p) rs).length
    ∧ (DataService.searchRecords (setPred o p) rs).length
      ≤ (DataService.searchRecords (clearPred o p) rs).length := by
  have hsub : List.Sublist (DataService.applyFilters (setPred o p) rs)
      (DataService.applyFilters (clearPred o p) rs) := by
    cases p with
    | condition v =>
      apply condFilter_sublist; apply condFilter_sublist; apply condFilter_sublist
      apply condFilter_sublist; apply condFilter_sublist; apply condFilter_sublist
      exact condFilter_self _ _ _
    | medication v =>
      apply condFilter_sublist; apply condFilter_sublist; apply condFilter_sublist
      apply condFilter_sublist; apply condFilter_sublist
      exact condFilter_self _ _ _
    | region v =>
      apply condFilter_sublist; apply condFilter_sublist; apply condFilter_sublist
      apply condFilter_sublist
      exact condFilter_self _ _ _
    | ageMin n =>
      apply condFilter_sublist; apply condFilter_sublist; apply condFilter_sublist
      exact condFilter_self _ _ _
    | ageMax n =>
      apply condFilter_sublist; apply condFilter_sublist
      exact condFilter_self _ _ _
    | gender v =>
      apply condFilter_sublist
      exact condFilter_self _ _ _
    | diagnosis v =>
      exact condFilter_self _ _ _
  refine ⟨hsub, hsub.length_le, ?_⟩
  have hlim : (setPred o p).limit = (clearPred o p).limit := by
    cases p <;> rfl
  unfold DataService.searchRecords
  rw [hlim]
  simp only [List.length_take]
  exact min_le_min (le_refl _) hsub.length_le

/-! ## Claim C5 -/

/-- C5 counterexample: with an empty cache and a failing source read, the
SQL route produces a SUCCESS response with no error message and an empty
record slice — the read failure is logged but never surfaced to the caller
as an error response. -/
theorem C5_read_failure_counterexample :
    (sqlRoute "SELECT * FROM ehr_records" (Except.error "ENOENT: no such file") 1000000
        { cachedRecords := none, cachedStats := none, cacheTimestamp := none }).1.success
      = true
    ∧ (sqlRoute "SELECT * FROM ehr_records" (Except.error "ENOENT: no such file") 1000000
        { cachedRecords := none, cachedStats := none, cacheTimestamp := none }).1.error
      = none :=
  ⟨by decide, by decide⟩

/-- C5 amended: when the source read fails during a refresh (the record
cache being stale or absent), the engine does not retry, leaves every
cache cell untouched (a previously cached snapshot is not destroyed),
does not crash (`loadEHRData` is total and catches the failure), and
returns an empty record set — but the error is only logged, not reported:
the caller receives an ordinary success response with an empty record
slice and no error message. -/
theorem C5_read_failure_amended (e : String) (now : Nat) (st : DataService.CacheState)
    (q : String) (hv : DataService.recordCacheValid st now = false)
    (hg : (parseSimpleSQL q).groupBy = none) :
    DataService.loadEHRData (Except.error e) now st = ([], st)
    ∧ (sqlRoute q (Except.error e) now st).1.success = true
    ∧ (sqlRoute q (Except.error e) now st).1.error = none
    ∧ (sqlRoute q (Except.error e) now st).1.records = some []
    ∧ (sqlRoute q (Except.error e) now st).2 = st := by
  have hload : DataService.loadEHRData (Except.error e) now st = ([], st) := by
    unfold DataService.loadEHRData
    rw [hv]
    simp
  refine ⟨hload, ?_, ?_, ?_, ?_⟩
  · simp [sqlRoute, hload, executeSQLQuery, hg]
  · simp [sqlRoute, hload, executeSQLQuery, hg]
  · simp [sqlRoute, hload, executeSQLQuery, hg, whereFilter_nil]
  · simp [sqlRoute, hload]

/-- Witness for C5's amended claim: a stale one-record snapshot (the TTL
of 300000 ms has elapsed at `now = 400000`) survives a failing refresh
untouched while the caller gets a success response with zero records. -/
theorem C5_read_failure_amended_witness :
    (DataService.recordCacheValid
        { cachedRecords := some [diabetesRecord], cachedStats := none,
          cacheTimestamp := some 50000 } 400000 = false
      ∧ (parseSimpleSQL "SELECT * FROM ehr_records").groupBy = none)
    ∧ DataService.loadEHRData (Except.error "EACCES") 400000
        { cachedRecords := some [diabetesRecord], cachedStats := none,
          cacheTimestamp := some 50000 }
      = ([], { cachedRecords := some [diabetesRecord], cachedStats := none,
               cacheTimestamp := some 50000 })
    ∧ (sqlRoute "SELECT * FROM ehr_records" (Except.error "EACCES") 400000
        { cachedRecords := some [diabetesRecord], cachedStats := none,
          cacheTimestamp := some 50000 }).1.success = true
    ∧ (sqlRoute "SELECT * FROM ehr_records" (Except.error "EACCES") 400000
        { cachedRecords := some [diabetesRecord], cachedStats := none,
          cacheTimestamp := some 50000 }).1.error = none
    ∧ (sqlRoute "SELECT * FROM ehr_records" (Except.error "EACCES") 400000
        { cachedRecords := some [diabetesRecord], cachedStats := none,
          cacheTimestamp := some 50000 }).1.records = some []
    ∧ (sqlRoute "SELECT * FROM ehr_records" (Except.error "EACCES") 400000
        { cachedRecords := some [diabetesRecord], cachedStats := none,
          cacheTimestamp := some 50000 }).2
      = { cachedRecords := some [diabetesRecord], cachedStats := none,
          cacheTimestamp := some 50000 } :=
  ⟨⟨by decide, by decide⟩,
    C5_read_failure_amended "EACCES" 400000
      { cachedRecords := some [diabetesRecord], cachedStats := none,
        cacheTimestamp := some 50000 }
      "SELECT * FROM ehr_records" (by decide) (by decide)⟩

/-! ## Claim C6 -/

/-- C6: replacing the record snapshot (a successful reparse in
`loadEHRData`) always clears the cached statistics snapshot; and while the
record cache is within its TTL, recomputing statistics neither touches the
record snapshot or its timestamp nor depends on the read source at all —
no record reparse happens. -/
theorem C6_cache_invalidation (now : Nat) (st : DataService.CacheState) :
    (∀ content : String, DataService.recordCacheValid st now = false →
      (DataService.loadEHRData (Except.ok content) now st).2.cachedStats = none)
    ∧ (∀ r1 r2 : Except String String, DataService.recordCacheValid st now = true →
      DataService.getEHRStatistics r1 now st = DataService.getEHRStatistics r2 now st
      ∧ (DataService.getEHRStatistics r1 now st).2.cachedRecords = st.cachedRecords
      ∧ (DataService.getEHRStatistics r1 now st).2.cacheTimestamp = st.cacheTimestamp) := by
  constructor
  · intro content hv
    unfold DataService.loadEHRData
    rw [hv]
    simp
  · intro r1 r2 hv
    have hload : ∀ r : Except String String,
        DataService.loadEHRData r now st = (st.cachedRecords.getD [], st) := by
      intro r
      unfold DataService.loadEHRData
      rw [hv]
      simp
    unfold DataService.getEHRStatistics
    cases hcs : st.cachedStats with
    | some s =>
      cases hts : DataService.tsFresh st now with
      | true => exact ⟨rfl, rfl, rfl⟩
      | false => exact ⟨by simp [hload], by simp [hload], by simp [hload]⟩
    | none => exact ⟨by simp [hload], by simp [hload], by simp [hload]⟩

/-- Witness for C6 applied at a fresh one-record cache (and, for its first
clause, at a state with no snapshot at all, via a second application). -/
theorem C6_cache_invalidation_witness :
    (DataService.recordCacheValid
        { cachedRecords := some [diabetesRecord],
          cachedStats := some (DataService.computeStatistics [diabetesRecord]),
          cacheTimestamp := some 50000 } 60000 = true
      ∧ DataService.recordCacheValid
          { cachedRecords := none, cachedStats := none, cacheTimestamp := none } 60000
        = false)
    ∧ (DataService.loadEHRData (Except.ok "header\nrow") 60000
        { cachedRecords := none, cachedStats := none, cacheTimestamp := none }).2.cachedStats
      = none
    ∧ (DataService.getEHRStatistics (Except.error "EIO") 60000
          { cachedRecords := some [diabetesRecord],
            cachedStats := some (DataService.computeStatistics [diabetesRecord]),
            cacheTimestamp := some 50000 }
        = DataService.getEHRStatistics (Except.ok "other") 60000
          { cachedRecords := some [diabetesRecord],
            cachedStats := some (DataService.computeStatistics [diabetesRecord]),
            cacheTimestamp := some 50000 }
      ∧ (DataService.getEHRStatistics (Except.error "EIO") 60000
          { cachedRecords := some [diabetesRecord],
            cachedStats := some (DataService.computeStatistics [diabetesRecord]),
            cacheTimestamp := some 50000 }).2.cachedRecords = some [diabetesRecord]
      ∧ (DataService.getEHRStatistics (Except.error "EIO") 60000
          { cachedRecords := some [diabetesRecord],
            cachedStats := some (DataService.computeStatistics [diabetesRecord]),
            cacheTimestamp := some 50000 }).2.cacheTimestamp = some 50000) :=
  ⟨⟨by decide, by decide⟩,
    (C6_cache_invalidation 60000
        { cachedRecords := none, cachedStats := none, cacheTimestamp := none }).1
      "header\nrow" (by decide),
    (C6_cache_invalidation 60000
        { cachedRecords := some [diabetesRecord],
          cachedStats := some (DataService.computeStatistics [diabetesRecord]),
          cacheTimestamp := some 50000 }).2
      (Except.error "EIO") (Except.ok "other") (by decide)⟩
